import Mathlib

/-!
Verification of `deps/fix/posix_missing_fix.h`.

The header is declarative: an include guard, a `#ifdef _WIN32` group, three
type declarations, one macro and one function prototype.  It is embedded here
as the list of its logical lines (with their line numbers in the file), and
"including the header" is the conditional-inclusion pass of the C preprocessor
run over that list, starting from the translation unit seen so far.

Modelling conventions:

* a translation unit is the ordered list of what has been defined or declared
  so far (`Env`): object-like macro definitions and declarations;
* the preprocessor keeps a stack of conditional groups; a line takes effect
  only when every enclosing group is taken;
* declarations are kept as parsed; macro replacement inside declaration text
  is not modelled.
-/

namespace PosixMissingFix

/-! ## Data model -/

/-- The type specifiers that occur in the header: the built-in ones and a
reference to a typedef name. -/
inductive BaseType
  | void
  | int
  | unsignedLong
  | typedefName (n : String)
  deriving DecidableEq, Repr

/-- A specifier followed by `ptrDepth` asterisks: `int` is `⟨.int, 0⟩`,
`siginfo_t *` is `⟨.typedefName "siginfo_t", 1⟩`. -/
structure ValType where
  base : BaseType
  ptrDepth : Nat
  deriving DecidableEq, Repr

/-- A parameter of a function type; the name is optional in a prototype. -/
structure Param where
  type : ValType
  name : Option String
  deriving DecidableEq, Repr

/-- The type of a struct member: an object type, or a pointer to a function
(`ret (*member)(params)`). -/
inductive MemberType
  | obj (t : ValType)
  | funPtr (ret : ValType) (params : List Param)
  deriving DecidableEq, Repr

/-- A struct member together with the line of the header it is written on. -/
structure Field where
  line : Nat
  type : MemberType
  name : String
  deriving DecidableEq, Repr

/-- External declarations.  The header uses `typedefStruct`, `structDef` and
`function`; `typedefAlias` is the form `typedef T name;`, which a system
header already present in the translation unit may have used. -/
inductive Decl
  | typedefStruct (fields : List Field) (nameLine : Nat) (name : String)
  | structDef (tag : String) (fields : List Field)
  | function (isExtern : Bool) (ret : ValType) (name : String)
      (params : List Param) (hasBody : Bool)
  | typedefAlias (t : ValType) (name : String)
  deriving DecidableEq, Repr

/-- Preprocessing tokens of a macro replacement list. -/
inductive PPToken
  | intLit (n : Nat)
  | ident (s : String)
  deriving DecidableEq, Repr

/-- One logical line of the header. -/
inductive Line
  | ifndef (m : String)
  | ifdef (m : String)
  | define (m : String) (body : List PPToken)
  | endif
  | decl (d : Decl)
  | blank
  deriving DecidableEq, Repr

/-- What a translation unit has accumulated: a macro definition or a
declaration. -/
inductive Entry
  | macroDef (name : String) (body : List PPToken)
  | decl (d : Decl)
  deriving DecidableEq, Repr

/-- The translation unit seen so far, oldest entry first. -/
abbrev Env := List Entry

/-- The three name spaces of C that matter here. -/
inductive NameSpace
  | pp
  | ordinary
  | tag
  deriving DecidableEq, Repr

/-- A name together with its name space. -/
structure CName where
  ns : NameSpace
  id : String
  deriving DecidableEq, Repr

/-! ## The header -/

/-- Line 8: the only member of the struct behind `sigset_t`. -/
def sigset_t_fields : List Field :=
  [⟨8, .obj ⟨.int, 0⟩, "__dummy"⟩]

/-- Line 13: the only member of the struct behind `siginfo_t`. -/
def siginfo_t_fields : List Field :=
  [⟨13, .obj ⟨.int, 0⟩, "__dummy"⟩]

/-- Lines 18 to 21: the members of `struct sigaction`. -/
def sigaction_fields : List Field :=
  [ ⟨18, .funPtr ⟨.void, 0⟩ [⟨⟨.int, 0⟩, none⟩], "sa_handler"⟩,
    ⟨19, .funPtr ⟨.void, 0⟩
        [⟨⟨.int, 0⟩, none⟩, ⟨⟨.typedefName "siginfo_t", 1⟩, none⟩, ⟨⟨.void, 1⟩, none⟩],
      "sa_sigaction"⟩,
    ⟨20, .obj ⟨.typedefName "sigset_t", 0⟩, "sa_mask"⟩,
    ⟨21, .obj ⟨.int, 0⟩, "sa_flags"⟩ ]

/-- Lines 6 to 9: `typedef struct { int __dummy; } sigset_t;`. -/
def sigset_t : Decl := .typedefStruct sigset_t_fields 9 "sigset_t"

/-- Lines 11 to 14: `typedef struct { int __dummy; } siginfo_t;`. -/
def siginfo_t : Decl := .typedefStruct siginfo_t_fields 14 "siginfo_t"

/-- Lines 16 to 22: `struct sigaction { ... };`. -/
def sigaction : Decl := .structDef "sigaction" sigaction_fields

/-- Line 25: `extern unsigned long sysconf(int name);`. -/
def sysconf : Decl :=
  .function true ⟨.unsignedLong, 0⟩ "sysconf" [⟨⟨.int, 0⟩, some "name"⟩] false

/-- The file `posix_missing_fix.h`: each logical line with the number of the
line it starts on. -/
def header : List (Nat × Line) :=
  [ (1, Line.ifndef "POSIX_MISSING_FIX_H"),
    (2, .define "POSIX_MISSING_FIX_H" []),
    (3, .blank),
    (4, Line.ifdef "_WIN32"),
    (5, .blank),
    (6, .decl sigset_t),
    (10, .blank),
    (11, .decl siginfo_t),
    (15, .blank),
    (16, .decl sigaction),
    (23, .blank),
    (24, .define "_SC_PAGESIZE" [.intLit 1001]),
    (25, .decl sysconf),
    (26, .endif),
    (27, .blank),
    (28, .endif) ]

/-! ## Conditional inclusion -/

/-- Whether `e` is a definition of the macro `m`. -/
def Entry.isDefinitionOf (m : String) : Entry → Bool
  | .macroDef n _ => n == m
  | .decl _ => false

/-- Whether the macro `m` is defined in the translation unit. -/
def isDefined (m : String) (env : Env) : Bool :=
  env.any (Entry.isDefinitionOf m)

/-- The replacement list of the most recent definition of `m`. -/
def macroBody (m : String) (env : Env) : Option (List PPToken) :=
  match env.reverse.find? (Entry.isDefinitionOf m) with
  | some (.macroDef _ body) => some body
  | _ => none

/-- Preprocessor state while reading the header: the translation unit before
the `#include`, what the header has contributed so far, and the stack of
open conditional groups (`true`: the group is taken). -/
structure PPState where
  pre : Env
  out : List Entry
  conds : List Bool
  deriving DecidableEq, Repr

/-- A line takes effect when every enclosing conditional group is taken. -/
def PPState.active (s : PPState) : Bool :=
  s.conds.all id

/-- Everything visible at the current line. -/
def PPState.visible (s : PPState) : Env :=
  s.pre ++ s.out

/-- Process one logical line. -/
def step (s : PPState) : Line → PPState
  | .ifndef m => { s with conds := (!isDefined m s.visible) :: s.conds }
  | .ifdef m => { s with conds := isDefined m s.visible :: s.conds }
  | .endif => { s with conds := s.conds.tail }
  | .define m body =>
      if s.active then { s with out := s.out ++ [.macroDef m body] } else s
  | .decl d =>
      if s.active then { s with out := s.out ++ [.decl d] } else s
  | .blank => s

/-- Read the whole header after the translation unit `env`. -/
def run (env : Env) : PPState :=
  (header.map Prod.snd).foldl step ⟨env, [], []⟩

/-- What one `#include "posix_missing_fix.h"` contributes after `env`. -/
def emitted (env : Env) : List Entry :=
  (run env).out

/-- The translation unit after `#include "posix_missing_fix.h"`. -/
def includeHeader (env : Env) : Env :=
  env ++ emitted env

/-! ## Observations on a translation unit -/

/-- The name a declaration introduces. -/
def Decl.declaredName : Decl → CName
  | .typedefStruct _ _ n => ⟨.ordinary, n⟩
  | .structDef t _ => ⟨.tag, t⟩
  | .function _ _ n _ _ => ⟨.ordinary, n⟩
  | .typedefAlias _ n => ⟨.ordinary, n⟩

/-- The name an entry introduces. -/
def Entry.declaredName : Entry → CName
  | .macroDef n _ => ⟨.pp, n⟩
  | .decl d => d.declaredName

/-- All names defined or declared in a translation unit. -/
def declaredNames (env : Env) : List CName :=
  env.map Entry.declaredName

/-- The declarations of a translation unit, macros left out. -/
def declsOf (env : Env) : List Decl :=
  env.filterMap fun e => match e with
    | .decl d => some d
    | .macroDef _ _ => none

/-- The macro definitions of a translation unit. -/
def macrosOf (env : Env) : List (String × List PPToken) :=
  env.filterMap fun e => match e with
    | .macroDef n b => some (n, b)
    | .decl _ => none

/-- Names and types of the members of a struct, in order. -/
def memberSigs (fs : List Field) : List (String × MemberType) :=
  fs.map fun f => (f.name, f.type)

/-- The member lists of every definition of `struct tag` among `es`. -/
def structDefsOf (tag : String) (es : List Entry) : List (List Field) :=
  es.filterMap fun e => match e with
    | .decl (.structDef t fs) => if t = tag then some fs else none
    | _ => none

/-- The member lists of every `typedef struct { ... } name;` among `es`. -/
def typedefStructsOf (name : String) (es : List Entry) : List (List Field) :=
  es.filterMap fun e => match e with
    | .decl (.typedefStruct fs _ n) => if n = name then some fs else none
    | _ => none

/-- Every declaration or definition of the function `name` among `es`. -/
def functionsOf (name : String) (es : List Entry) : List Decl :=
  es.filterMap fun e => match e with
    | .decl (.function x r n ps b) =>
        if n = name then some (.function x r n ps b) else none
    | _ => none

/-! ## Use before declaration -/

/-- The typedef name a type refers to, if it is not built in. -/
def ValType.typedefRef (t : ValType) : List String :=
  match t.base with
  | .typedefName n => [n]
  | _ => []

/-- The typedef names a member type refers to. -/
def MemberType.typedefRefs : MemberType → List String
  | .obj t => t.typedefRef
  | .funPtr r ps => r.typedefRef ++ ps.flatMap fun p => p.type.typedefRef

/-- The typedef names the members refer to, each with the line of the use. -/
def fieldRefs (fs : List Field) : List (String × Nat) :=
  fs.flatMap fun f => f.type.typedefRefs.map fun n => (n, f.line)

/-- Every use of a typedef name in a line of the header, with its line. -/
def typeRefs : Nat × Line → List (String × Nat)
  | (_, .decl (.typedefStruct fs _ _)) => fieldRefs fs
  | (_, .decl (.structDef _ fs)) => fieldRefs fs
  | (l, .decl (.function _ r _ ps _)) =>
      (r.typedefRef ++ ps.flatMap fun p => p.type.typedefRef).map fun n => (n, l)
  | (l, .decl (.typedefAlias t _)) => t.typedefRef.map fun n => (n, l)
  | _ => []

/-- The typedef name a line of the header declares, with the line the name is
written on. -/
def typedefSite : Nat × Line → List (String × Nat)
  | (_, .decl (.typedefStruct _ nameLine n)) => [(n, nameLine)]
  | (l, .decl (.typedefAlias _ n)) => [(n, l)]
  | _ => []

/-- The typedef names a declaration refers to. -/
def Decl.typedefRefs : Decl → List String
  | .typedefStruct fs _ _ => fs.flatMap fun f => f.type.typedefRefs
  | .structDef _ fs => fs.flatMap fun f => f.type.typedefRefs
  | .function _ r _ ps _ => r.typedefRef ++ ps.flatMap fun p => p.type.typedefRef
  | .typedefAlias t _ => t.typedefRef

/-- The typedef name a declaration introduces, if it is a typedef. -/
def Decl.typedefNames : Decl → List String
  | .typedefStruct _ _ n => [n]
  | .typedefAlias _ n => [n]
  | _ => []

/-- Scan a sequence of entries in order: every typedef name a declaration
refers to is in `known` or was introduced by an earlier entry of the
sequence. -/
def resolvedFrom (known : List String) : List Entry → Bool
  | [] => true
  | .macroDef _ _ :: es => resolvedFrom known es
  | .decl d :: es =>
      d.typedefRefs.all (fun n => known.contains n) &&
        resolvedFrom (d.typedefNames ++ known) es

/-! ## Sample translation units -/

/-- A Windows translation unit before any header: the compiler predefines
`_WIN32` as `1`. -/
def winEnv : Env :=
  [.macroDef "_WIN32" [.intLit 1]]

/-- A POSIX translation unit before any header. -/
def posixEnv : Env :=
  [.macroDef "__unix__" [.intLit 1]]

/-- A Windows translation unit in which another header has already declared
`sigset_t`. -/
def winEnvWithSigset : Env :=
  [.macroDef "_WIN32" [.intLit 1], .decl (.typedefAlias ⟨.unsignedLong, 0⟩ "sigset_t")]

/-- The five names the header exists to provide. -/
def providedNames : List CName :=
  [⟨.ordinary, "sigset_t"⟩, ⟨.ordinary, "siginfo_t"⟩, ⟨.tag, "sigaction"⟩,
    ⟨.pp, "_SC_PAGESIZE"⟩, ⟨.ordinary, "sysconf"⟩]

/-! ## Lemmas on conditional inclusion -/

theorem isDefined_nil (m : String) : isDefined m [] = false := rfl

theorem isDefined_cons (m : String) (e : Entry) (es : Env) :
    isDefined m (e :: es) = (e.isDefinitionOf m || isDefined m es) := by
  simp [isDefined]

theorem isDefined_append (m : String) (a b : Env) :
    isDefined m (a ++ b) = (isDefined m a || isDefined m b) := by
  simp [isDefined]

/-- With the guard already defined the whole header is skipped. -/
theorem emitted_of_guarded (env : Env)
    (hg : isDefined "POSIX_MISSING_FIX_H" env = true) :
    emitted env = [] := by
  simp [emitted, run, header, step, PPState.active, PPState.visible, hg]

/-- First inclusion without `_WIN32`: only the guard is defined. -/
theorem emitted_of_posix (env : Env)
    (hg : isDefined "POSIX_MISSING_FIX_H" env = false)
    (hw : isDefined "_WIN32" env = false) :
    emitted env = [.macroDef "POSIX_MISSING_FIX_H" []] := by
  simp [emitted, run, header, step, PPState.active, PPState.visible, hg, hw,
    isDefined_append, isDefined_cons, isDefined_nil, Entry.isDefinitionOf]

/-- First inclusion with `_WIN32`: the guard and the whole Windows group. -/
theorem emitted_of_windows (env : Env)
    (hg : isDefined "POSIX_MISSING_FIX_H" env = false)
    (hw : isDefined "_WIN32" env = true) :
    emitted env =
      [.macroDef "POSIX_MISSING_FIX_H" [], .decl sigset_t, .decl siginfo_t,
        .decl sigaction, .macroDef "_SC_PAGESIZE" [.intLit 1001], .decl sysconf] := by
  simp [emitted, run, header, step, PPState.active, PPState.visible, hg, hw,
    isDefined_append, isDefined_cons, isDefined_nil, Entry.isDefinitionOf]

/-- Whatever the starting translation unit, the guard is defined afterwards. -/
theorem guard_defined_after (env : Env) :
    isDefined "POSIX_MISSING_FIX_H" (includeHeader env) = true := by
  cases hg : isDefined "POSIX_MISSING_FIX_H" env with
  | true => simp [includeHeader, isDefined_append, hg]
  | false =>
    cases hw : isDefined "_WIN32" env with
    | true =>
      simp [includeHeader, isDefined_append, emitted_of_windows env hg hw, isDefined_cons,
        Entry.isDefinitionOf]
    | false =>
      simp [includeHeader, isDefined_append, emitted_of_posix env hg hw, isDefined_cons,
        Entry.isDefinitionOf]

/-- An undefined macro is not among the declared names. -/
theorem not_mem_declaredNames_of_undefined (m : String) (env : Env)
    (h : isDefined m env = false) : (⟨.pp, m⟩ : CName) ∉ declaredNames env := by
  induction env with
  | nil => simp [declaredNames]
  | cons e es ih =>
    rw [isDefined_cons, Bool.or_eq_false_iff] at h
    have ih1 := ih h.2
    cases e with
    | macroDef n b =>
      have hn : n ≠ m := by
        intro hnm
        have := h.1
        simp [Entry.isDefinitionOf, hnm] at this
      simp only [declaredNames, List.map_cons, List.mem_cons, not_or]
      refine ⟨?_, ih1⟩
      simp [Entry.declaredName]
      exact fun hmn => hn hmn.symm
    | decl d =>
      simp only [declaredNames, List.map_cons, List.mem_cons, not_or]
      refine ⟨?_, ih1⟩
      cases d <;> simp [Entry.declaredName, Decl.declaredName]

/-! ## C1: inclusion on the POSIX target -/

/-- C1 (as stated, refuted): on a POSIX translation unit in which neither
`_WIN32` nor the guard is defined, inclusion is not a no-op: the translation
unit changes, because the guard macro `POSIX_MISSING_FIX_H` is added to the
defined macros. -/
theorem posix_include_adds_guard :
    isDefined "_WIN32" posixEnv = false ∧
    includeHeader posixEnv ≠ posixEnv ∧
    isDefined "POSIX_MISSING_FIX_H" posixEnv = false ∧
    isDefined "POSIX_MISSING_FIX_H" (includeHeader posixEnv) = true ∧
    macrosOf (includeHeader posixEnv) ≠ macrosOf posixEnv := by
  decide

/-- C1 (amended): without `_WIN32`, inclusion adds no declaration of a type or
function, and the only thing it can add is the definition of the guard macro
`POSIX_MISSING_FIX_H` with an empty replacement list, added once when the
guard is not yet defined; with the guard defined the translation unit is
unchanged. -/
theorem posix_include_only_guard (env : Env) (hw : isDefined "_WIN32" env = false) :
    includeHeader env =
        (if isDefined "POSIX_MISSING_FIX_H" env = true then env
         else env ++ [.macroDef "POSIX_MISSING_FIX_H" []]) ∧
    declsOf (includeHeader env) = declsOf env ∧
    macrosOf (includeHeader env) =
        (if isDefined "POSIX_MISSING_FIX_H" env = true then macrosOf env
         else macrosOf env ++ [("POSIX_MISSING_FIX_H", [])]) := by
  cases hg : isDefined "POSIX_MISSING_FIX_H" env with
  | true => simp [includeHeader, emitted_of_guarded env hg]
  | false => simp [includeHeader, emitted_of_posix env hg hw, declsOf, macrosOf]

/-- The amended C1 at `posixEnv`: the guard is appended and the declarations
are unchanged. -/
theorem posix_include_only_guard_witness :
    isDefined "_WIN32" posixEnv = false ∧
    includeHeader posixEnv = posixEnv ++ [.macroDef "POSIX_MISSING_FIX_H" []] ∧
    declsOf (includeHeader posixEnv) = declsOf posixEnv :=
  ⟨by decide,
    (posix_include_only_guard posixEnv (by decide)).1.trans (by decide),
    (posix_include_only_guard posixEnv (by decide)).2.1⟩

/-! ## C2: `struct sigaction` -/

/-- C2: on the Windows target, a first inclusion of the header declares
`struct sigaction` exactly once, with exactly four members, in this order:
`sa_handler`, pointer to function `(int) -> void`; `sa_sigaction`, pointer to
function `(int, siginfo_t *, void *) -> void`; `sa_mask` of type `sigset_t`;
`sa_flags` of type `int`. -/
theorem sigaction_members (env : Env) (hw : isDefined "_WIN32" env = true)
    (hg : isDefined "POSIX_MISSING_FIX_H" env = false) :
    (structDefsOf "sigaction" (emitted env)).map memberSigs =
      [[ ("sa_handler", .funPtr ⟨.void, 0⟩ [⟨⟨.int, 0⟩, none⟩]),
         ("sa_sigaction", .funPtr ⟨.void, 0⟩
            [⟨⟨.int, 0⟩, none⟩, ⟨⟨.typedefName "siginfo_t", 1⟩, none⟩, ⟨⟨.void, 1⟩, none⟩]),
         ("sa_mask", .obj ⟨.typedefName "sigset_t", 0⟩),
         ("sa_flags", .obj ⟨.int, 0⟩) ]] := by
  rw [emitted_of_windows env hg hw]
  decide

/-- C2 at `winEnv`. -/
theorem sigaction_members_witness :
    isDefined "_WIN32" winEnv = true ∧
    isDefined "POSIX_MISSING_FIX_H" winEnv = false ∧
    (structDefsOf "sigaction" (emitted winEnv)).map memberSigs =
      [[ ("sa_handler", .funPtr ⟨.void, 0⟩ [⟨⟨.int, 0⟩, none⟩]),
         ("sa_sigaction", .funPtr ⟨.void, 0⟩
            [⟨⟨.int, 0⟩, none⟩, ⟨⟨.typedefName "siginfo_t", 1⟩, none⟩, ⟨⟨.void, 1⟩, none⟩]),
         ("sa_mask", .obj ⟨.typedefName "sigset_t", 0⟩),
         ("sa_flags", .obj ⟨.int, 0⟩) ]] :=
  ⟨by decide, by decide, sigaction_members winEnv (by decide) (by decide)⟩

/-! ## C3: `_SC_PAGESIZE` -/

/-- C3: on the Windows target, after a first inclusion of the header the macro
`_SC_PAGESIZE` is defined and its replacement list is the single integer
constant `1001`, whatever the translation unit held before. -/
theorem sc_pagesize_is_1001 (env : Env) (hw : isDefined "_WIN32" env = true)
    (hg : isDefined "POSIX_MISSING_FIX_H" env = false) :
    isDefined "_SC_PAGESIZE" (includeHeader env) = true ∧
    macroBody "_SC_PAGESIZE" (includeHeader env) = some [.intLit 1001] := by
  constructor
  · simp [includeHeader, isDefined_append, emitted_of_windows env hg hw, isDefined_cons,
      Entry.isDefinitionOf]
  · simp [includeHeader, macroBody, emitted_of_windows env hg hw, List.find?_cons,
      Entry.isDefinitionOf]

/-- C3 at `winEnv`. -/
theorem sc_pagesize_is_1001_witness :
    isDefined "_WIN32" winEnv = true ∧
    isDefined "POSIX_MISSING_FIX_H" winEnv = false ∧
    macroBody "_SC_PAGESIZE" (includeHeader winEnv) = some [.intLit 1001] :=
  ⟨by decide, by decide, (sc_pagesize_is_1001 winEnv (by decide) (by decide)).2⟩

/-! ## C4: `sigset_t` and `siginfo_t` -/

/-- C4: on the Windows target, a first inclusion of the header declares
`sigset_t` and `siginfo_t`, each exactly once, as a typedef of a struct with
exactly one member, and that member has type `int`. -/
theorem placeholder_typedefs (env : Env) (hw : isDefined "_WIN32" env = true)
    (hg : isDefined "POSIX_MISSING_FIX_H" env = false) :
    (typedefStructsOf "sigset_t" (emitted env)).map memberSigs =
        [[("__dummy", .obj ⟨.int, 0⟩)]] ∧
    (typedefStructsOf "siginfo_t" (emitted env)).map memberSigs =
        [[("__dummy", .obj ⟨.int, 0⟩)]] := by
  rw [emitted_of_windows env hg hw]
  decide

/-- C4 at `winEnv`. -/
theorem placeholder_typedefs_witness :
    isDefined "_WIN32" winEnv = true ∧
    isDefined "POSIX_MISSING_FIX_H" winEnv = false ∧
    (typedefStructsOf "sigset_t" (emitted winEnv)).map memberSigs =
        [[("__dummy", .obj ⟨.int, 0⟩)]] ∧
    (typedefStructsOf "siginfo_t" (emitted winEnv)).map memberSigs =
        [[("__dummy", .obj ⟨.int, 0⟩)]] :=
  ⟨by decide, by decide, placeholder_typedefs winEnv (by decide) (by decide)⟩

/-! ## C5: `sysconf` -/

/-- C5: on the Windows target, a first inclusion of the header contributes
exactly one entry for the function `sysconf`: an `extern` prototype with
return type `unsigned long`, exactly one parameter, of type `int`, and no
body. -/
theorem sysconf_prototype (env : Env) (hw : isDefined "_WIN32" env = true)
    (hg : isDefined "POSIX_MISSING_FIX_H" env = false) :
    functionsOf "sysconf" (emitted env) =
      [.function true ⟨.unsignedLong, 0⟩ "sysconf" [⟨⟨.int, 0⟩, some "name"⟩] false] := by
  rw [emitted_of_windows env hg hw]
  decide

/-- C5 at `winEnv`. -/
theorem sysconf_prototype_witness :
    isDefined "_WIN32" winEnv = true ∧
    isDefined "POSIX_MISSING_FIX_H" winEnv = false ∧
    functionsOf "sysconf" (emitted winEnv) =
      [.function true ⟨.unsignedLong, 0⟩ "sysconf" [⟨⟨.int, 0⟩, some "name"⟩] false] :=
  ⟨by decide, by decide, sysconf_prototype winEnv (by decide) (by decide)⟩

/-! ## C6: names already declared -/

/-- C6 (as stated, refuted): in a Windows translation unit that already
declares `sigset_t`, inclusion declares `sigset_t` again. -/
theorem include_redeclares_sigset :
    isDefined "_WIN32" winEnvWithSigset = true ∧
    (⟨.ordinary, "sigset_t"⟩ : CName) ∈ declaredNames winEnvWithSigset ∧
    (⟨.ordinary, "sigset_t"⟩ : CName) ∈ declaredNames (emitted winEnvWithSigset) := by
  decide

/-- C6 (amended): on the Windows target, a first inclusion declares the guard
and the five provided names whatever the translation unit already declares;
so it introduces no name that is already declared exactly when the
translation unit declares none of `sigset_t`, `siginfo_t`, `struct sigaction`,
`_SC_PAGESIZE`, `sysconf`. -/
theorem include_conflict_free_iff (env : Env) (hw : isDefined "_WIN32" env = true)
    (hg : isDefined "POSIX_MISSING_FIX_H" env = false) :
    declaredNames (emitted env) = ⟨.pp, "POSIX_MISSING_FIX_H"⟩ :: providedNames ∧
    ((∀ n ∈ declaredNames (emitted env), n ∉ declaredNames env) ↔
      (∀ n ∈ providedNames, n ∉ declaredNames env)) := by
  have hnames : declaredNames (emitted env) =
      ⟨.pp, "POSIX_MISSING_FIX_H"⟩ :: providedNames := by
    rw [emitted_of_windows env hg hw]
    decide
  refine ⟨hnames, ?_⟩
  rw [hnames]
  constructor
  · intro h n hn
    exact h n (List.mem_cons_of_mem _ hn)
  · intro h n hn
    rcases List.mem_cons.mp hn with rfl | hn
    · exact not_mem_declaredNames_of_undefined _ env hg
    · exact h n hn

/-- The amended C6 at `winEnv`, which declares none of the provided names:
nothing the header introduces was declared before. -/
theorem include_conflict_free_iff_witness :
    isDefined "_WIN32" winEnv = true ∧
    isDefined "POSIX_MISSING_FIX_H" winEnv = false ∧
    (∀ n ∈ declaredNames (emitted winEnv), n ∉ declaredNames winEnv) :=
  ⟨by decide, by decide,
    (include_conflict_free_iff winEnv (by decide) (by decide)).2.mpr (by decide)⟩

/-! ## C7: idempotence -/

/-- C7: for every starting translation unit, including the header twice gives
the same translation unit as including it once: after one inclusion the guard
`POSIX_MISSING_FIX_H` is defined and a further inclusion contributes
nothing. -/
theorem include_idempotent (env : Env) :
    includeHeader (includeHeader env) = includeHeader env ∧
    isDefined "POSIX_MISSING_FIX_H" (includeHeader env) = true ∧
    emitted (includeHeader env) = [] := by
  have hg := guard_defined_after env
  have he := emitted_of_guarded (includeHeader env) hg
  refine ⟨?_, hg, he⟩
  show includeHeader env ++ emitted (includeHeader env) = includeHeader env
  rw [he, List.append_nil]

/-! ## C8: declaration before use -/

/-- C8: the typedef names used by declarations of the header are `siginfo_t`
(line 19) and `sigset_t` (line 20), nothing else; each is declared by the
header on an earlier line than the use; and in whatever a single inclusion
contributes, every typedef name used has been declared by an earlier entry of
that same contribution, so nothing from outside the header is needed. -/
theorem declared_before_use :
    header.flatMap typeRefs = [("siginfo_t", 19), ("sigset_t", 20)] ∧
    (∀ r ∈ header.flatMap typeRefs,
      ∃ d ∈ header.flatMap typedefSite, d.1 = r.1 ∧ d.2 < r.2) ∧
    (∀ env : Env, resolvedFrom [] (emitted env) = true) := by
  refine ⟨by decide, by decide, ?_⟩
  intro env
  cases hg : isDefined "POSIX_MISSING_FIX_H" env with
  | true => rw [emitted_of_guarded env hg]; decide
  | false =>
    cases hw : isDefined "_WIN32" env with
    | true => rw [emitted_of_windows env hg hw]; decide
    | false => rw [emitted_of_posix env hg hw]; decide

end PosixMissingFix
